import Mathlib

/-
Verification of the GCS-to-BigQuery loading utilities (`src/bq_utils.py`).

The two Python functions `load_parquet_from_gcs` and `load_csv_from_gcs` are
embedded shallowly as pure Lean functions.  External collaborators (the object
store and the warehouse job engine) are modelled by a `World` of oracles; each
function returns its result (`Except Err String`, the table identifier on
success) together with the ordered trace of external calls it performed
(`List Event`).  Machine-level details of the Python runtime that the code
relies on — string truthiness (`if encoding:` treats `""` like `None`),
`str.lower`, `getattr` on the `WriteDisposition` namespace, `bytes.decode
("utf-16le")` and `str.encode("utf-8")` — are embedded explicitly.
-/

set_option maxHeartbeats 1000000

deriving instance DecidableEq for Except

namespace BqUtils

/-- Python `str.lower` restricted to ASCII case folding (the encoding and
separator names this module compares against are all ASCII). -/
def lowerChar (c : Char) : Char :=
  if 'A' ≤ c && c ≤ 'Z' then Char.ofNat (c.toNat + 32) else c

/-- Python `s.lower()` on ASCII strings. -/
def pyLower (s : String) : String := ⟨s.data.map lowerChar⟩

/-! ## Text transcoding (Python `bytes.decode("utf-16le")` / `str.encode("utf-8")`)

Bytes are lists of `Nat` (each a byte value); decoded text is the list of
Unicode code points.  Decoding fails (Python raises `UnicodeDecodeError`) on
an odd-length byte string or an unpaired surrogate. -/

/-- Byte sequences, each entry one byte. -/
abbrev Bytes := List Nat

/-- High-surrogate code unit test (0xD800–0xDBFF). -/
def isHighSurrogate (u : Nat) : Bool := 0xD800 ≤ u && u ≤ 0xDBFF

/-- Low-surrogate code unit test (0xDC00–0xDFFF). -/
def isLowSurrogate (u : Nat) : Bool := 0xDC00 ≤ u && u ≤ 0xDFFF

/-- Pair consecutive bytes little-endian into 16-bit code units; `none` on odd
length (Python: "truncated data"). -/
def utf16leUnits : List Nat → Option (List Nat)
  | [] => some []
  | [_] => none
  | b0 :: b1 :: rest => (utf16leUnits rest).map (fun us => (b0 + 256 * b1) :: us)

/-- Combine surrogate pairs of code units into code points; `none` on an
unpaired surrogate. -/
def combineSurrogates : List Nat → Option (List Nat)
  | [] => some []
  | u :: rest =>
    if isHighSurrogate u then
      match rest with
      | [] => none
      | v :: rest2 =>
        if isLowSurrogate v then
          (combineSurrogates rest2).map
            (fun cs => (0x10000 + (u - 0xD800) * 0x400 + (v - 0xDC00)) :: cs)
        else none
    else if isLowSurrogate u then none
    else (combineSurrogates rest).map (fun cs => u :: cs)

/-- Model of `content.decode("utf-16le")`: bytes to code points, or failure. -/
def utf16leDecode (bs : Bytes) : Option (List Nat) :=
  (utf16leUnits bs).bind combineSurrogates

/-- UTF-8 encoding of a single code point. -/
def utf8EncodeChar (c : Nat) : Bytes :=
  if c < 0x80 then [c]
  else if c < 0x800 then [0xC0 + c / 64, 0x80 + c % 64]
  else if c < 0x10000 then [0xE0 + c / 4096, 0x80 + (c / 64) % 64, 0x80 + c % 64]
  else [0xF0 + c / 262144, 0x80 + (c / 4096) % 64, 0x80 + (c / 64) % 64, 0x80 + c % 64]

/-- Model of `text_content.encode("utf-8")`: code points to bytes. -/
def utf8Encode (cs : List Nat) : Bytes :=
  List.flatten (cs.map utf8EncodeChar)

/-! ## Data model -/

/-- The `bigquery.Encoding` constants the code can place in a load config. -/
inductive BQEncoding where
  | UTF_8
  | ISO_8859_1
deriving DecidableEq, Repr

/-- Model of `bigquery.LoadJobConfig`: the fields this module reads or writes.  A field
the code never assigns stays `none`, matching the Python object's unset
(`None`) properties. -/
structure LoadJobConfig where
  source_format : String
  write_disposition : String
  skip_leading_rows : Option Nat := none
  encoding : Option BQEncoding := none
  field_delimiter : Option String := none
  date_format : Option String := none
  datetime_format : Option String := none
  schema : Option (List String) := none
  autodetect : Option Bool := none
deriving DecidableEq, Repr

/-- Errors the embedded functions can fail with: `ValueError` (missing storage
client), `AttributeError` (unknown write-disposition name fed to `getattr`),
`UnicodeDecodeError` (invalid UTF-16LE input), and a load-job failure carrying
the job engine's own error verbatim. -/
inductive Err where
  | valueError (msg : String)
  | attrError (name : String)
  | unicodeDecodeError
  | loadJobError (msg : String)
deriving DecidableEq, Repr

/-- One external call, in program order: object-store download / upload /
delete, job submission, the blocking wait, and the table-metadata fetch. -/
inductive Event where
  | download (bucket path : String)
  | upload (bucket path : String) (content : Bytes) (contentType : String)
  | delete (bucket path : String)
  | submit (uri tableId : String) (cfg : LoadJobConfig)
  | wait
  | getTable (tableId : String)
deriving DecidableEq, Repr

/-- Oracles for the external collaborators: the bytes the object store returns
for a download, the outcome of the job engine's blocking wait (`error e` means
`load_job.result()` raises with condition `e`), and the outcome of the
temporary-blob delete. -/
structure World where
  downloadBytes : String → String → Bytes
  waitResult : Except String Unit
  deleteResult : Except String Unit

/-- Arguments of `load_parquet_from_gcs` (clients themselves are in `World`). -/
structure ParquetArgs where
  gcs_path : String
  table_name : String
  project_id : String
  dataset_id : String
  bucket_name : String
  schema : Option (List String) := none
  primary_key : Option String := none
  write_disposition : String := "WRITE_TRUNCATE"

/-- Arguments of `load_csv_from_gcs`.  `has_storage_client` models whether the
optional `storage_client` argument was supplied (its behaviour is in `World`). -/
structure CsvArgs where
  gcs_path : String
  table_name : String
  project_id : String
  dataset_id : String
  bucket_name : String
  schema : Option (List String) := none
  skip_leading_rows : Nat := 1
  write_disposition : String := "WRITE_TRUNCATE"
  encoding : Option String := none
  sep : Option String := none
  date_format : Option String := none
  datetime_format : Option String := none
  has_storage_client : Bool := false

/-! ## The embedded functions -/

/-- Model of the f-string joining project, dataset and table with dots. -/
def tableId3 (p d t : String) : String := p ++ "." ++ d ++ "." ++ t

/-- Model of the f-string forming the gs URI from bucket and path. -/
def gsUri (bucket path : String) : String := "gs://" ++ bucket ++ "/" ++ path

/-- Model of `getattr(bigquery.WriteDisposition, write_disposition)`: the class has the
three constants below (each equal to its own name); any other name raises
`AttributeError`. -/
def writeDispositionAttr (s : String) : Option String :=
  if s = "WRITE_TRUNCATE" then some "WRITE_TRUNCATE"
  else if s = "WRITE_APPEND" then some "WRITE_APPEND"
  else if s = "WRITE_EMPTY" then some "WRITE_EMPTY"
  else none

/-- Model of `encoding and encoding.lower() in ["utf-16le", "utf-16-le"]` — Python
truthiness makes both `None` and `""` fail the first conjunct. -/
def needsUtf16Conversion : Option String → Bool
  | none => false
  | some e => !(e == "") && (pyLower e == "utf-16le" || pyLower e == "utf-16-le")

/-- The `if encoding:` block configuring `job_config.encoding`
(lines 159–166): case-insensitive `utf-8`/`utf8` map to `UTF_8`,
`latin-1`/`iso-8859-1` to `ISO_8859_1`, any other truthy value to `UTF_8`;
`None` and `""` leave the field unset. -/
def configureEncoding (encoding : Option String) (cfg : LoadJobConfig) : LoadJobConfig :=
  match encoding with
  | none => cfg
  | some e =>
      if e == "" then cfg
      else if pyLower e == "utf-8" || pyLower e == "utf8" then
        { cfg with encoding := some BQEncoding.UTF_8 }
      else if pyLower e == "latin-1" || pyLower e == "iso-8859-1" then
        { cfg with encoding := some BQEncoding.ISO_8859_1 }
      else
        { cfg with encoding := some BQEncoding.UTF_8 }

/-- The `if sep:` block configuring `job_config.field_delimiter`
(lines 169–173): the two-character string backslash-t becomes one tab
character, any other truthy value passes through; `None` and `""` leave the
field unset. -/
def configureSep (sep : Option String) (cfg : LoadJobConfig) : LoadJobConfig :=
  match sep with
  | none => cfg
  | some s =>
      if s == "" then cfg
      else if s == "\\t" then { cfg with field_delimiter := some "\t" }
      else { cfg with field_delimiter := some s }

/-- The `if date_format:` block (lines 176–177). -/
def configureDateFormat (fmt : Option String) (cfg : LoadJobConfig) : LoadJobConfig :=
  match fmt with
  | none => cfg
  | some f => if f == "" then cfg else { cfg with date_format := some f }

/-- The `if datetime_format:` block (lines 180–181). -/
def configureDatetimeFormat (fmt : Option String) (cfg : LoadJobConfig) : LoadJobConfig :=
  match fmt with
  | none => cfg
  | some f => if f == "" then cfg else { cfg with datetime_format := some f }

/-- Python `if schema:` truthiness: `None` and the empty list are falsy. -/
def schemaTruthy : Option (List String) → Bool
  | none => false
  | some l => !l.isEmpty

/-- The `if schema: ... else: job_config.autodetect = True` block. -/
def configureSchema (schema : Option (List String)) (cfg : LoadJobConfig) : LoadJobConfig :=
  if schemaTruthy schema then { cfg with schema := schema }
  else { cfg with autodetect := some true }

/-- The full CSV load configuration assembled from the arguments, a resolved
write disposition and the (possibly overridden) encoding value. -/
def csvJobConfig (a : CsvArgs) (wd : String) (enc : Option String) : LoadJobConfig :=
  configureSchema a.schema
    (configureDatetimeFormat a.datetime_format
      (configureDateFormat a.date_format
        (configureSep a.sep
          (configureEncoding enc
            { source_format := "CSV", write_disposition := wd,
              skip_leading_rows := some a.skip_leading_rows }))))

/-- Lines 150–203 of `load_csv_from_gcs`: config assembly, job submission, the
blocking wait, the metadata fetch, and — only when a temporary blob exists —
the best-effort delete whose failure is swallowed (`try/except` around
`temp_blob.delete()`). -/
def loadCsvRest (w : World) (a : CsvArgs) (table_id gcs_uri : String)
    (enc : Option String) (temp : Option String) (ev0 : List Event) :
    Except Err String × List Event :=
  match writeDispositionAttr a.write_disposition with
  | none => (Except.error (Err.attrError a.write_disposition), ev0)
  | some wd =>
    match w.waitResult with
    | Except.error e =>
        (Except.error (Err.loadJobError e),
         ev0 ++ [Event.submit gcs_uri table_id (csvJobConfig a wd enc), Event.wait])
    | Except.ok _ =>
      match temp with
      | none =>
          (Except.ok table_id,
           ev0 ++ [Event.submit gcs_uri table_id (csvJobConfig a wd enc), Event.wait,
                   Event.getTable table_id])
      | some tp =>
        match w.deleteResult with
        | Except.ok _ =>
            (Except.ok table_id,
             ev0 ++ [Event.submit gcs_uri table_id (csvJobConfig a wd enc), Event.wait,
                     Event.getTable table_id, Event.delete a.bucket_name tp])
        | Except.error _ =>
            (Except.ok table_id,
             ev0 ++ [Event.submit gcs_uri table_id (csvJobConfig a wd enc), Event.wait,
                     Event.getTable table_id, Event.delete a.bucket_name tp])

/-- Model of `load_csv_from_gcs` (lines 71–203): when the encoding is classified as
UTF-16LE the source is downloaded, transcoded, uploaded to `gcs_path ++
".utf8"`, the load retargeted there with encoding forced to `"utf-8"`, and the
temporary path remembered for cleanup; otherwise the original object is loaded
directly. -/
def load_csv_from_gcs (w : World) (a : CsvArgs) : Except Err String × List Event :=
  if needsUtf16Conversion a.encoding then
    if a.has_storage_client then
      match utf16leDecode (w.downloadBytes a.bucket_name a.gcs_path) with
      | none => (Except.error Err.unicodeDecodeError, [Event.download a.bucket_name a.gcs_path])
      | some text =>
          loadCsvRest w a (tableId3 a.project_id a.dataset_id a.table_name)
            (gsUri a.bucket_name (a.gcs_path ++ ".utf8")) (some "utf-8")
            (some (a.gcs_path ++ ".utf8"))
            [Event.download a.bucket_name a.gcs_path,
             Event.upload a.bucket_name (a.gcs_path ++ ".utf8") (utf8Encode text) "text/plain"]
    else
      (Except.error
        (Err.valueError "storage_client est requis pour convertir les fichiers UTF-16LE en UTF-8"),
       [])
  else
    loadCsvRest w a (tableId3 a.project_id a.dataset_id a.table_name)
      (gsUri a.bucket_name a.gcs_path) a.encoding none []

/-- The Parquet load configuration (lines 49–57). -/
def parquetJobConfig (a : ParquetArgs) (wd : String) : LoadJobConfig :=
  configureSchema a.schema { source_format := "PARQUET", write_disposition := wd }

/-- Model of `load_parquet_from_gcs` (lines 13–68).  `primary_key` is only printed by
the source, and console output is outside the model. -/
def load_parquet_from_gcs (w : World) (a : ParquetArgs) : Except Err String × List Event :=
  match writeDispositionAttr a.write_disposition with
  | none => (Except.error (Err.attrError a.write_disposition), [])
  | some wd =>
    match w.waitResult with
    | Except.error e =>
        (Except.error (Err.loadJobError e),
         [Event.submit (gsUri a.bucket_name a.gcs_path)
            (tableId3 a.project_id a.dataset_id a.table_name) (parquetJobConfig a wd),
          Event.wait])
    | Except.ok _ =>
        (Except.ok (tableId3 a.project_id a.dataset_id a.table_name),
         [Event.submit (gsUri a.bucket_name a.gcs_path)
            (tableId3 a.project_id a.dataset_id a.table_name) (parquetJobConfig a wd),
          Event.wait,
          Event.getTable (tableId3 a.project_id a.dataset_id a.table_name)])

/-! ## Trace observations -/

/-- Is the event an object-store delete? -/
def isDeleteEvent : Event → Bool
  | Event.delete _ _ => true
  | _ => false

/-- Is the event an object-store upload? -/
def isUploadEvent : Event → Bool
  | Event.upload _ _ _ _ => true
  | _ => false

/-- Is the event any object-store operation (download, upload or delete)? -/
def isStoreEvent : Event → Bool
  | Event.download _ _ => true
  | Event.upload _ _ _ _ => true
  | Event.delete _ _ => true
  | _ => false

/-- The load configurations submitted to the job engine, in order. -/
def submittedConfigs (evs : List Event) : List LoadJobConfig :=
  evs.filterMap (fun e => match e with
    | Event.submit _ _ c => some c
    | _ => none)

/-- The source URIs submitted to the job engine, in order. -/
def submittedUris (evs : List Event) : List String :=
  evs.filterMap (fun e => match e with
    | Event.submit u _ _ => some u
    | _ => none)

/-! ## Concrete fixtures used by witnesses and counterexamples -/

/-- Object store returning the UTF-16LE bytes of "hi"; wait and delete succeed. -/
def okWorld : World :=
  { downloadBytes := fun _ _ => [104, 0, 105, 0],
    waitResult := Except.ok (), deleteResult := Except.ok () }

/-- Same store, but the job engine's wait raises with condition "boom". -/
def failWorld : World := { okWorld with waitResult := Except.error "boom" }

/-- Same store, but the temporary-blob delete raises with condition "denied". -/
def deleteFailWorld : World := { okWorld with deleteResult := Except.error "denied" }

/-- The spec's CSV scenario: data/f.csv into proj.ds.t, separator ";",
no encoding, autodetected schema. -/
def scenarioArgs : CsvArgs :=
  { gcs_path := "data/f.csv", table_name := "t", project_id := "proj",
    dataset_id := "ds", bucket_name := "bucket", encoding := none, sep := some ";" }

/-- The scenario with a UTF-16LE encoding and a storage client supplied. -/
def utf16Args : CsvArgs :=
  { scenarioArgs with encoding := some "utf-16le", has_storage_client := true }

/-- The scenario with the empty string supplied as encoding. -/
def emptyEncArgs : CsvArgs := { scenarioArgs with encoding := some "" }

/-- The scenario with the empty string supplied as separator. -/
def emptySepArgs : CsvArgs := { scenarioArgs with sep := some "" }

/-- The spec's Parquet scenario: x.parquet into proj.ds.p. -/
def parquetArgs0 : ParquetArgs :=
  { gcs_path := "x.parquet", table_name := "p", project_id := "proj",
    dataset_id := "ds", bucket_name := "bucket" }

/-- The scenario requesting UTF-16LE conversion without a storage client. -/
def noClientArgs : CsvArgs := { scenarioArgs with encoding := some "UTF-16-LE" }

/-- The scenario with a mixed-case Latin-1 encoding name. -/
def latinArgs : CsvArgs := { scenarioArgs with encoding := some "LATIN-1" }

/-- The scenario with the literal two-character backslash-t separator. -/
def tabArgs : CsvArgs := { scenarioArgs with sep := some "\\t" }

/-! ## Helper lemmas -/

theorem needsUtf16_true {e : String}
    (hlow : pyLower e = "utf-16le" ∨ pyLower e = "utf-16-le") :
    needsUtf16Conversion (some e) = true := by
  have hne : (e == "") = false := by
    rcases eq_or_ne e "" with he | he
    · subst he; rcases hlow with h | h <;> exact absurd h (by decide)
    · simp [he]
  unfold needsUtf16Conversion
  rcases hlow with h | h <;> simp [hne, h]

theorem needsUtf16_false {e : String}
    (h1 : pyLower e ≠ "utf-16le") (h2 : pyLower e ≠ "utf-16-le") :
    needsUtf16Conversion (some e) = false := by
  unfold needsUtf16Conversion
  simp [h1, h2]

theorem load_csv_conversion_eq (w : World) (a : CsvArgs) (text : List Nat)
    (hneeds : needsUtf16Conversion a.encoding = true)
    (hsc : a.has_storage_client = true)
    (hdec : utf16leDecode (w.downloadBytes a.bucket_name a.gcs_path) = some text) :
    load_csv_from_gcs w a =
      loadCsvRest w a (tableId3 a.project_id a.dataset_id a.table_name)
        (gsUri a.bucket_name (a.gcs_path ++ ".utf8")) (some "utf-8")
        (some (a.gcs_path ++ ".utf8"))
        [Event.download a.bucket_name a.gcs_path,
         Event.upload a.bucket_name (a.gcs_path ++ ".utf8") (utf8Encode text) "text/plain"] := by
  unfold load_csv_from_gcs
  simp [hneeds, hsc, hdec]

theorem load_csv_noconv_eq (w : World) (a : CsvArgs)
    (hneeds : needsUtf16Conversion a.encoding = false) :
    load_csv_from_gcs w a =
      loadCsvRest w a (tableId3 a.project_id a.dataset_id a.table_name)
        (gsUri a.bucket_name a.gcs_path) a.encoding none [] := by
  unfold load_csv_from_gcs
  simp [hneeds]

theorem configureEncoding_field_delimiter (enc : Option String) (cfg : LoadJobConfig) :
    (configureEncoding enc cfg).field_delimiter = cfg.field_delimiter := by
  unfold configureEncoding
  split
  · rfl
  · split
    · rfl
    · split
      · rfl
      · split <;> rfl

theorem configureSep_encoding (s : Option String) (cfg : LoadJobConfig) :
    (configureSep s cfg).encoding = cfg.encoding := by
  unfold configureSep
  split
  · rfl
  · split
    · rfl
    · split <;> rfl

theorem configureDateFormat_encoding (fmt : Option String) (cfg : LoadJobConfig) :
    (configureDateFormat fmt cfg).encoding = cfg.encoding := by
  unfold configureDateFormat
  split
  · rfl
  · split <;> rfl

theorem configureDateFormat_field_delimiter (fmt : Option String) (cfg : LoadJobConfig) :
    (configureDateFormat fmt cfg).field_delimiter = cfg.field_delimiter := by
  unfold configureDateFormat
  split
  · rfl
  · split <;> rfl

theorem configureDatetimeFormat_encoding (fmt : Option String) (cfg : LoadJobConfig) :
    (configureDatetimeFormat fmt cfg).encoding = cfg.encoding := by
  unfold configureDatetimeFormat
  split
  · rfl
  · split <;> rfl

theorem configureDatetimeFormat_field_delimiter (fmt : Option String) (cfg : LoadJobConfig) :
    (configureDatetimeFormat fmt cfg).field_delimiter = cfg.field_delimiter := by
  unfold configureDatetimeFormat
  split
  · rfl
  · split <;> rfl

theorem configureSchema_encoding (schema : Option (List String)) (cfg : LoadJobConfig) :
    (configureSchema schema cfg).encoding = cfg.encoding := by
  unfold configureSchema
  split <;> rfl

theorem configureSchema_field_delimiter (schema : Option (List String)) (cfg : LoadJobConfig) :
    (configureSchema schema cfg).field_delimiter = cfg.field_delimiter := by
  unfold configureSchema
  split <;> rfl

theorem csvJobConfig_encoding (a : CsvArgs) (wd : String) (enc : Option String) :
    (csvJobConfig a wd enc).encoding =
      (configureEncoding enc
        { source_format := "CSV", write_disposition := wd,
          skip_leading_rows := some a.skip_leading_rows }).encoding := by
  unfold csvJobConfig
  rw [configureSchema_encoding, configureDatetimeFormat_encoding,
    configureDateFormat_encoding, configureSep_encoding]

theorem csvJobConfig_utf8_encoding (a : CsvArgs) (wd : String) :
    (csvJobConfig a wd (some "utf-8")).encoding = some BQEncoding.UTF_8 := by
  rw [csvJobConfig_encoding]
  rfl

theorem csvJobConfig_field_delimiter (a : CsvArgs) (wd : String) (enc : Option String) :
    (csvJobConfig a wd enc).field_delimiter =
      (configureSep a.sep
        (configureEncoding enc
          { source_format := "CSV", write_disposition := wd,
            skip_leading_rows := some a.skip_leading_rows })).field_delimiter := by
  unfold csvJobConfig
  rw [configureSchema_field_delimiter, configureDatetimeFormat_field_delimiter,
    configureDateFormat_field_delimiter]

theorem configureSep_some_field_delimiter (s : String) (cfg : LoadJobConfig)
    (hne : s ≠ "") :
    (configureSep (some s) cfg).field_delimiter =
      if s = "\\t" then some "\t" else some s := by
  unfold configureSep
  simp [hne]
  split <;> simp_all

theorem submittedConfigs_loadCsvRest (w : World) (a : CsvArgs)
    (tid uri : String) (enc : Option String) (temp : Option String)
    (ev0 : List Event) (wd : String)
    (hwd : writeDispositionAttr a.write_disposition = some wd) :
    submittedConfigs (loadCsvRest w a tid uri enc temp ev0).2 =
      submittedConfigs ev0 ++ [csvJobConfig a wd enc] := by
  unfold loadCsvRest
  rw [hwd]
  cases hw : w.waitResult with
  | error e => simp [submittedConfigs]
  | ok u =>
      cases temp with
      | none => simp [submittedConfigs]
      | some tp => cases hd : w.deleteResult <;> simp [submittedConfigs]

theorem submittedUris_loadCsvRest (w : World) (a : CsvArgs)
    (tid uri : String) (enc : Option String) (temp : Option String)
    (ev0 : List Event) (wd : String)
    (hwd : writeDispositionAttr a.write_disposition = some wd) :
    submittedUris (loadCsvRest w a tid uri enc temp ev0).2 =
      submittedUris ev0 ++ [uri] := by
  unfold loadCsvRest
  rw [hwd]
  cases hw : w.waitResult with
  | error e => simp [submittedUris]
  | ok u =>
      cases temp with
      | none => simp [submittedUris]
      | some tp => cases hd : w.deleteResult <;> simp [submittedUris]

theorem submittedConfigs_loadCsvRest_badwd (w : World) (a : CsvArgs)
    (tid uri : String) (enc : Option String) (temp : Option String)
    (ev0 : List Event)
    (hwd : writeDispositionAttr a.write_disposition = none) :
    submittedConfigs (loadCsvRest w a tid uri enc temp ev0).2 =
      submittedConfigs ev0 := by
  unfold loadCsvRest
  rw [hwd]

/-- Every configuration this CSV load submits to the job engine is the
assembled `csvJobConfig` for the resolved write disposition and either the
forced `"utf-8"` (conversion path) or the caller's encoding (direct path). -/
theorem submittedConfigs_mem_load_csv (w : World) (a : CsvArgs) :
    ∀ cfg ∈ submittedConfigs (load_csv_from_gcs w a).2, ∃ wd,
      writeDispositionAttr a.write_disposition = some wd ∧
      (cfg = csvJobConfig a wd (some "utf-8") ∨
       cfg = csvJobConfig a wd a.encoding) := by
  intro cfg hmem
  unfold load_csv_from_gcs at hmem
  by_cases hn : needsUtf16Conversion a.encoding = true
  · rw [if_pos hn] at hmem
    cases hc : a.has_storage_client with
    | false =>
        rw [hc] at hmem
        simp [submittedConfigs] at hmem
    | true =>
        rw [hc] at hmem
        simp only [if_true] at hmem
        cases hd : utf16leDecode (w.downloadBytes a.bucket_name a.gcs_path) with
        | none =>
            rw [hd] at hmem
            simp [submittedConfigs] at hmem
        | some text =>
            rw [hd] at hmem
            cases hwd : writeDispositionAttr a.write_disposition with
            | none =>
                rw [submittedConfigs_loadCsvRest_badwd w a _ _ _ _ _ hwd] at hmem
                simp [submittedConfigs] at hmem
            | some wd =>
                rw [submittedConfigs_loadCsvRest w a _ _ _ _ _ wd hwd] at hmem
                simp [submittedConfigs] at hmem
                exact ⟨wd, rfl, Or.inl hmem⟩
  · rw [if_neg hn] at hmem
    cases hwd : writeDispositionAttr a.write_disposition with
    | none =>
        rw [submittedConfigs_loadCsvRest_badwd w a _ _ _ _ _ hwd] at hmem
        simp [submittedConfigs] at hmem
    | some wd =>
        rw [submittedConfigs_loadCsvRest w a _ _ _ _ _ wd hwd] at hmem
        simp [submittedConfigs] at hmem
        exact ⟨wd, rfl, Or.inr hmem⟩

/-! ## Claims -/

/-- C3: for a call to `load_csv_from_gcs` with an encoding classified as
UTF-16LE but no storage client supplied, the call fails with the `ValueError`
about the missing client, with an empty external-call trace: no object-store
download/upload, no job submission, and no temporary artifact. -/
theorem c3_missing_storage_client_fails_fast (w : World) (a : CsvArgs) (e : String)
    (henc : a.encoding = some e)
    (hlow : pyLower e = "utf-16le" ∨ pyLower e = "utf-16-le")
    (hsc : a.has_storage_client = false) :
    load_csv_from_gcs w a =
      (Except.error (Err.valueError
        "storage_client est requis pour convertir les fichiers UTF-16LE en UTF-8"),
       []) := by
  have hneeds : needsUtf16Conversion a.encoding = true := by
    rw [henc]
    exact needsUtf16_true hlow
  unfold load_csv_from_gcs
  simp [hneeds, hsc]

/-- Witness for C3: the scenario arguments with `encoding = "UTF-16-LE"` and
no storage client fail with the `ValueError` and an empty trace. -/
theorem c3_missing_storage_client_witness :
    load_csv_from_gcs okWorld noClientArgs =
      (Except.error (Err.valueError
        "storage_client est requis pour convertir les fichiers UTF-16LE en UTF-8"),
       []) :=
  c3_missing_storage_client_fails_fast okWorld noClientArgs "UTF-16-LE" rfl
    (Or.inr (by decide)) rfl

/-- C1 counterexample: with a UTF-16LE source (a temporary artifact is
created: one upload happens) and a job wait that raises "boom", the function
propagates the load failure but performs no delete at all — the claim that the
delete is still invoked when the warehouse job fails is false on the code. -/
theorem c1_cex_job_failure_skips_delete :
    List.countP isUploadEvent (load_csv_from_gcs failWorld utf16Args).2 = 1 ∧
    List.countP isDeleteEvent (load_csv_from_gcs failWorld utf16Args).2 = 0 ∧
    (load_csv_from_gcs failWorld utf16Args).1 =
      Except.error (Err.loadJobError "boom") := by
  decide

/-- C1 amended: whenever a temporary transcoded artifact is created, its
deletion is attempted exactly once — as the final external call, after the job
wait — but only when the job wait succeeds; when the wait raises, the raised
condition propagates and no deletion is attempted. -/
theorem c1_amended_cleanup_only_after_successful_wait (w : World) (a : CsvArgs)
    (e : String) (text : List Nat) (wd : String)
    (henc : a.encoding = some e)
    (hlow : pyLower e = "utf-16le" ∨ pyLower e = "utf-16-le")
    (hsc : a.has_storage_client = true)
    (hdec : utf16leDecode (w.downloadBytes a.bucket_name a.gcs_path) = some text)
    (hwd : writeDispositionAttr a.write_disposition = some wd) :
    (w.waitResult = Except.ok () →
       (load_csv_from_gcs w a).2 =
         [Event.download a.bucket_name a.gcs_path,
          Event.upload a.bucket_name (a.gcs_path ++ ".utf8") (utf8Encode text)
            "text/plain",
          Event.submit (gsUri a.bucket_name (a.gcs_path ++ ".utf8"))
            (tableId3 a.project_id a.dataset_id a.table_name)
            (csvJobConfig a wd (some "utf-8")),
          Event.wait,
          Event.getTable (tableId3 a.project_id a.dataset_id a.table_name),
          Event.delete a.bucket_name (a.gcs_path ++ ".utf8")]) ∧
    (∀ err, w.waitResult = Except.error err →
       List.countP isDeleteEvent (load_csv_from_gcs w a).2 = 0 ∧
       (load_csv_from_gcs w a).1 = Except.error (Err.loadJobError err)) := by
  have hneeds : needsUtf16Conversion a.encoding = true := by
    rw [henc]
    exact needsUtf16_true hlow
  rw [load_csv_conversion_eq w a text hneeds hsc hdec]
  unfold loadCsvRest
  rw [hwd]
  constructor
  · intro hw
    rw [hw]
    cases hd : w.deleteResult <;> simp
  · intro err hw
    rw [hw]
    simp [isDeleteEvent]

/-- Witness for C1 (amended): the concrete UTF-16LE scenario with a
successful wait performs exactly the six external calls, ending in the
delete of the temporary object. -/
theorem c1_amended_witness :
    (load_csv_from_gcs okWorld utf16Args).2 =
      [Event.download "bucket" "data/f.csv",
       Event.upload "bucket" "data/f.csv.utf8" [104, 105] "text/plain",
       Event.submit "gs://bucket/data/f.csv.utf8" "proj.ds.t"
         (csvJobConfig utf16Args "WRITE_TRUNCATE" (some "utf-8")),
       Event.wait, Event.getTable "proj.ds.t",
       Event.delete "bucket" "data/f.csv.utf8"] :=
  (c1_amended_cleanup_only_after_successful_wait okWorld utf16Args "utf-16le"
    [104, 105] "WRITE_TRUNCATE" rfl (Or.inl (by decide)) rfl (by decide) rfl).1 rfl

/-- C2: for a UTF-16LE-classified encoding with a storage client, the source
object is downloaded; its bytes, decoded as UTF-16LE and re-encoded as UTF-8,
are uploaded to `gcs_path ++ ".utf8"` in the same bucket with content type
text/plain; the only URI submitted to the job engine is that of the temporary
object; and the submitted configuration's encoding field is UTF-8. -/
theorem c2_utf16_conversion_pipeline (w : World) (a : CsvArgs)
    (e : String) (text : List Nat) (wd : String)
    (henc : a.encoding = some e)
    (hlow : pyLower e = "utf-16le" ∨ pyLower e = "utf-16-le")
    (hsc : a.has_storage_client = true)
    (hdec : utf16leDecode (w.downloadBytes a.bucket_name a.gcs_path) = some text)
    (hwd : writeDispositionAttr a.write_disposition = some wd) :
    Event.download a.bucket_name a.gcs_path ∈ (load_csv_from_gcs w a).2 ∧
    Event.upload a.bucket_name (a.gcs_path ++ ".utf8") (utf8Encode text)
      "text/plain" ∈ (load_csv_from_gcs w a).2 ∧
    submittedUris (load_csv_from_gcs w a).2 =
      [gsUri a.bucket_name (a.gcs_path ++ ".utf8")] ∧
    (submittedConfigs (load_csv_from_gcs w a).2).map LoadJobConfig.encoding =
      [some BQEncoding.UTF_8] := by
  have hneeds : needsUtf16Conversion a.encoding = true := by
    rw [henc]
    exact needsUtf16_true hlow
  rw [load_csv_conversion_eq w a text hneeds hsc hdec]
  rw [submittedUris_loadCsvRest w a _ _ _ _ _ wd hwd,
    submittedConfigs_loadCsvRest w a _ _ _ _ _ wd hwd]
  refine ⟨?_, ?_, ?_, ?_⟩
  · unfold loadCsvRest
    rw [hwd]
    cases hw : w.waitResult with
    | error e2 => simp
    | ok u => cases hd : w.deleteResult <;> simp
  · unfold loadCsvRest
    rw [hwd]
    cases hw : w.waitResult with
    | error e2 => simp
    | ok u => cases hd : w.deleteResult <;> simp
  · simp [submittedUris]
  · simp [submittedConfigs, csvJobConfig_utf8_encoding]

/-- Witness for C2: the concrete UTF-16LE scenario downloads, uploads the
transcoded bytes, submits only the temporary object's URI, and submits the
UTF-8 encoding. -/
theorem c2_utf16_conversion_witness :
    Event.download "bucket" "data/f.csv" ∈ (load_csv_from_gcs okWorld utf16Args).2 ∧
    Event.upload "bucket" "data/f.csv.utf8" (utf8Encode [104, 105])
      "text/plain" ∈ (load_csv_from_gcs okWorld utf16Args).2 ∧
    submittedUris (load_csv_from_gcs okWorld utf16Args).2 =
      ["gs://bucket/data/f.csv.utf8"] ∧
    (submittedConfigs (load_csv_from_gcs okWorld utf16Args).2).map
      LoadJobConfig.encoding = [some BQEncoding.UTF_8] :=
  c2_utf16_conversion_pipeline okWorld utf16Args "utf-16le" [104, 105]
    "WRITE_TRUNCATE" rfl (Or.inl (by decide)) rfl (by decide) rfl

/-- C4: with encoding absent or one of "utf8", "UTF8", "iso-8859-1",
"ISO_8859_1", the call performs no object-store operation (so no temporary
artifact is created) and every URI submitted to the job engine is
`gs://{bucket_name}/{gcs_path}` unchanged. -/
theorem c4_passthrough_encodings_no_store_ops (w : World) (a : CsvArgs)
    (henc : a.encoding = none ∨ a.encoding = some "utf8" ∨
            a.encoding = some "UTF8" ∨ a.encoding = some "iso-8859-1" ∨
            a.encoding = some "ISO_8859_1") :
    List.countP isStoreEvent (load_csv_from_gcs w a).2 = 0 ∧
    ∀ u, u ∈ submittedUris (load_csv_from_gcs w a).2 →
      u = gsUri a.bucket_name a.gcs_path := by
  have hneeds : needsUtf16Conversion a.encoding = false := by
    rcases henc with h | h | h | h | h <;> rw [h] <;> decide
  rw [load_csv_noconv_eq w a hneeds]
  unfold loadCsvRest
  cases hwd : writeDispositionAttr a.write_disposition with
  | none => simp [submittedUris]
  | some wd =>
      cases hw : w.waitResult with
      | error e =>
          constructor
          · simp [List.countP_cons, isStoreEvent]
          · simp [submittedUris]
      | ok u =>
          constructor
          · simp [List.countP_cons, isStoreEvent]
          · simp [submittedUris]

/-- Witness for C4: the plain scenario performs no object-store operation and
submits only the unchanged source URI. -/
theorem c4_passthrough_witness :
    List.countP isStoreEvent (load_csv_from_gcs okWorld scenarioArgs).2 = 0 :=
  (c4_passthrough_encodings_no_store_ops okWorld scenarioArgs (Or.inl rfl)).1

/-- C5 counterexample: in the spec's scenario (encoding absent, separator ";",
truncate, autodetect) the function does return "proj.ds.t", but the submitted
configuration's encoding field is unset (`none`), not UTF-8: the `if
encoding:` block is skipped entirely when encoding is `None`. -/
theorem c5_cex_encoding_field_unset :
    (load_csv_from_gcs okWorld scenarioArgs).1 = Except.ok "proj.ds.t" ∧
    (submittedConfigs (load_csv_from_gcs okWorld scenarioArgs).2).map
      LoadJobConfig.encoding = [none] ∧
    (none : Option BQEncoding) ≠ some BQEncoding.UTF_8 := by
  decide

/-- C5 amended: the scenario returns "proj.ds.t" and submits exactly one job
with URI `gs://bucket/data/f.csv`, field delimiter ";", autodetect true and
the encoding field left unset (the warehouse's own default, UTF-8, applies). -/
theorem c5_amended_scenario :
    load_csv_from_gcs okWorld scenarioArgs =
      (Except.ok "proj.ds.t",
       [Event.submit "gs://bucket/data/f.csv" "proj.ds.t"
          { source_format := "CSV", write_disposition := "WRITE_TRUNCATE",
            skip_leading_rows := some 1, encoding := none,
            field_delimiter := some ";", date_format := none,
            datetime_format := none, schema := none, autodetect := some true },
        Event.wait, Event.getTable "proj.ds.t"]) := by
  decide

/-- C6 counterexample: the empty string is a supplied encoding that triggers
no conversion, yet the submitted configuration's encoding is unset (`none`),
not UTF-8 — Python's `if encoding:` treats `""` as absent. -/
theorem c6_cex_empty_encoding_left_unset :
    emptyEncArgs.encoding = some "" ∧
    (submittedConfigs (load_csv_from_gcs okWorld emptyEncArgs).2).map
      LoadJobConfig.encoding = [none] ∧
    ([none] : List (Option BQEncoding)) ≠ [some BQEncoding.UTF_8] := by
  decide

/-- C6 amended: for every supplied non-empty encoding string not classified as
UTF-16LE: case-insensitive "utf-8"/"utf8" submit encoding UTF-8,
case-insensitive "latin-1"/"iso-8859-1" submit ISO-8859-1, and every other
value submits UTF-8; the empty string instead leaves the field unset. -/
theorem c6_amended_encoding_mapping (w : World) (a : CsvArgs) (e : String)
    (henc : a.encoding = some e)
    (hne : e ≠ "")
    (h16a : pyLower e ≠ "utf-16le") (h16b : pyLower e ≠ "utf-16-le") :
    ((pyLower e = "utf-8" ∨ pyLower e = "utf8") →
       ∀ cfg ∈ submittedConfigs (load_csv_from_gcs w a).2,
         cfg.encoding = some BQEncoding.UTF_8) ∧
    ((pyLower e = "latin-1" ∨ pyLower e = "iso-8859-1") →
       ∀ cfg ∈ submittedConfigs (load_csv_from_gcs w a).2,
         cfg.encoding = some BQEncoding.ISO_8859_1) ∧
    (pyLower e ≠ "utf-8" → pyLower e ≠ "utf8" → pyLower e ≠ "latin-1" →
     pyLower e ≠ "iso-8859-1" →
       ∀ cfg ∈ submittedConfigs (load_csv_from_gcs w a).2,
         cfg.encoding = some BQEncoding.UTF_8) := by
  have hneeds : needsUtf16Conversion a.encoding = false := by
    rw [henc]
    exact needsUtf16_false h16a h16b
  have hcfg : ∀ cfg ∈ submittedConfigs (load_csv_from_gcs w a).2, ∃ wd,
      cfg = csvJobConfig a wd (some e) := by
    intro cfg hmem
    rw [load_csv_noconv_eq w a hneeds] at hmem
    cases hwd : writeDispositionAttr a.write_disposition with
    | none =>
        rw [submittedConfigs_loadCsvRest_badwd w a _ _ _ _ _ hwd] at hmem
        simp [submittedConfigs] at hmem
    | some wd =>
        rw [submittedConfigs_loadCsvRest w a _ _ _ _ _ wd hwd] at hmem
        simp [submittedConfigs] at hmem
        exact ⟨wd, by rw [hmem, henc]⟩
  refine ⟨?_, ?_, ?_⟩
  · rintro h cfg hmem
    obtain ⟨wd, hcfg2⟩ := hcfg cfg hmem
    rw [hcfg2, csvJobConfig_encoding]
    unfold configureEncoding
    rcases h with h | h <;> simp [hne, h]
  · rintro h cfg hmem
    obtain ⟨wd, hcfg2⟩ := hcfg cfg hmem
    rw [hcfg2, csvJobConfig_encoding]
    unfold configureEncoding
    rcases h with h | h <;> simp [hne, h]
  · intro h1 h2 h3 h4 cfg hmem
    obtain ⟨wd, hcfg2⟩ := hcfg cfg hmem
    rw [hcfg2, csvJobConfig_encoding]
    unfold configureEncoding
    simp [hne, h1, h2, h3, h4]

/-- Witness for C6 (amended): supplying "LATIN-1" submits ISO-8859-1 in the
one configuration the scenario sends to the job engine. -/
theorem c6_amended_witness :
    (csvJobConfig latinArgs "WRITE_TRUNCATE" (some "LATIN-1")).encoding =
      some BQEncoding.ISO_8859_1 :=
  (c6_amended_encoding_mapping okWorld latinArgs "LATIN-1" rfl (by decide)
    (by decide) (by decide)).2.1 (Or.inl (by decide))
    (csvJobConfig latinArgs "WRITE_TRUNCATE" (some "LATIN-1")) (by decide)

/-- C7 counterexample: the empty string is a supplied delimiter other than
backslash-t, yet the submitted configuration's field delimiter is unset
(`none`) rather than passed through — Python's `if sep:` treats `""` as
absent. -/
theorem c7_cex_empty_sep_left_unset :
    emptySepArgs.sep = some "" ∧
    (submittedConfigs (load_csv_from_gcs okWorld emptySepArgs).2).map
      LoadJobConfig.field_delimiter = [none] ∧
    ([none] : List (Option String)) ≠ [some ""] := by
  decide

/-- C7 amended: if the supplied delimiter is exactly the two-character string
backslash-t, every submitted configuration carries the single tab character;
every other non-empty supplied delimiter is passed through unchanged; the
empty string instead leaves the field unset. -/
theorem c7_amended_sep_mapping (w : World) (a : CsvArgs) (s : String)
    (hsep : a.sep = some s) (hne : s ≠ "") :
    (s = "\\t" →
       ∀ cfg ∈ submittedConfigs (load_csv_from_gcs w a).2,
         cfg.field_delimiter = some "\t") ∧
    (s ≠ "\\t" →
       ∀ cfg ∈ submittedConfigs (load_csv_from_gcs w a).2,
         cfg.field_delimiter = some s) := by
  have hfd : ∀ cfg ∈ submittedConfigs (load_csv_from_gcs w a).2,
      cfg.field_delimiter = if s = "\\t" then some "\t" else some s := by
    intro cfg hmem
    obtain ⟨wd, hwd, hor | hor⟩ := submittedConfigs_mem_load_csv w a cfg hmem <;>
      rw [hor, csvJobConfig_field_delimiter, hsep,
        configureSep_some_field_delimiter s _ hne]
  constructor
  · intro h cfg hmem
    rw [hfd cfg hmem, if_pos h]
  · intro h cfg hmem
    rw [hfd cfg hmem, if_neg h]

/-- Witness for C7 (amended): supplying the two-character backslash-t
separator submits a single tab character as field delimiter in the one
configuration the scenario sends to the job engine. -/
theorem c7_amended_witness :
    (csvJobConfig tabArgs "WRITE_TRUNCATE" none).field_delimiter = some "\t" :=
  (c7_amended_sep_mapping okWorld tabArgs "\\t" rfl (by decide)).1 rfl
    (csvJobConfig tabArgs "WRITE_TRUNCATE" none) (by decide)

theorem loadCsvRest_delete_irrel (db : String → String → Bytes)
    (wr d1 d2 : Except String Unit) (a : CsvArgs) (tid uri : String)
    (enc temp : Option String) (ev0 : List Event) :
    loadCsvRest ⟨db, wr, d1⟩ a tid uri enc temp ev0 =
      loadCsvRest ⟨db, wr, d2⟩ a tid uri enc temp ev0 := by
  unfold loadCsvRest
  cases hwd : writeDispositionAttr a.write_disposition with
  | none => rfl
  | some wd =>
      cases wr with
      | error e => rfl
      | ok u =>
          cases temp with
          | none => rfl
          | some tp => cases d1 <;> cases d2 <;> rfl

/-- C8: the outcome of the temporary-blob delete never reaches the caller:
two runs of `load_csv_from_gcs` whose worlds agree on the object store's
contents and on the job wait — but may differ arbitrarily in whether the
delete succeeds or raises — produce identical results and identical traces. -/
theorem c8_delete_failure_swallowed (w1 w2 : World) (a : CsvArgs)
    (hdb : w1.downloadBytes = w2.downloadBytes)
    (hwait : w1.waitResult = w2.waitResult) :
    load_csv_from_gcs w1 a = load_csv_from_gcs w2 a := by
  obtain ⟨db1, wr1, d1⟩ := w1
  obtain ⟨db2, wr2, d2⟩ := w2
  dsimp only at hdb hwait
  subst hdb
  subst hwait
  unfold load_csv_from_gcs
  dsimp only
  by_cases hn : needsUtf16Conversion a.encoding = true
  · rw [if_pos hn, if_pos hn]
    by_cases hc : a.has_storage_client = true
    · rw [if_pos hc, if_pos hc]
      cases hd : utf16leDecode (db1 a.bucket_name a.gcs_path) with
      | none => rfl
      | some text => exact loadCsvRest_delete_irrel db1 wr1 d1 d2 a _ _ _ _ _
    · rw [if_neg hc, if_neg hc]
  · rw [if_neg hn, if_neg hn]
    exact loadCsvRest_delete_irrel db1 wr1 d1 d2 a _ _ _ _ _

/-- Witness for C8: the UTF-16LE scenario with a successful delete and the
same scenario with a raising delete give identical output. -/
theorem c8_delete_failure_witness :
    load_csv_from_gcs okWorld utf16Args =
      load_csv_from_gcs deleteFailWorld utf16Args :=
  c8_delete_failure_swallowed okWorld deleteFailWorld utf16Args rfl rfl

/-- C9: for both loaders, whenever the job engine's wait was reached (a wait
event is in the trace) and raises with condition `err`, the function's result
is exactly the load-job failure carrying `err` — not wrapped, not swallowed,
not retried. -/
theorem c9_wait_failure_propagates (w : World) (pa : ParquetArgs)
    (ca : CsvArgs) (err : String)
    (hw : w.waitResult = Except.error err) :
    (Event.wait ∈ (load_parquet_from_gcs w pa).2 →
       (load_parquet_from_gcs w pa).1 = Except.error (Err.loadJobError err)) ∧
    (Event.wait ∈ (load_csv_from_gcs w ca).2 →
       (load_csv_from_gcs w ca).1 = Except.error (Err.loadJobError err)) := by
  constructor
  · intro hmem
    unfold load_parquet_from_gcs
    unfold load_parquet_from_gcs at hmem
    cases hwd : writeDispositionAttr pa.write_disposition with
    | none =>
        rw [hwd] at hmem
        simp at hmem
    | some wd =>
        rw [hw]
  · intro hmem
    unfold load_csv_from_gcs
    unfold load_csv_from_gcs at hmem
    by_cases hn : needsUtf16Conversion ca.encoding = true
    · rw [if_pos hn] at hmem
      rw [if_pos hn]
      by_cases hc : ca.has_storage_client = true
      · rw [if_pos hc] at hmem
        rw [if_pos hc]
        cases hd : utf16leDecode (w.downloadBytes ca.bucket_name ca.gcs_path) with
        | none =>
            rw [hd] at hmem
            simp at hmem
        | some text =>
            rw [hd] at hmem
            unfold loadCsvRest
            unfold loadCsvRest at hmem
            cases hwd : writeDispositionAttr ca.write_disposition with
            | none =>
                rw [hwd] at hmem
                simp at hmem
            | some wd =>
                rw [hw]
      · rw [if_neg hc] at hmem
        simp at hmem
    · rw [if_neg hn] at hmem
      rw [if_neg hn]
      unfold loadCsvRest
      unfold loadCsvRest at hmem
      cases hwd : writeDispositionAttr ca.write_disposition with
      | none =>
          rw [hwd] at hmem
          simp at hmem
      | some wd =>
          rw [hw]

/-- Witness for C9: with the wait raising "boom", the Parquet scenario and the
UTF-16LE CSV scenario both fail with exactly that condition. -/
theorem c9_wait_failure_witness :
    (load_parquet_from_gcs failWorld parquetArgs0).1 =
      Except.error (Err.loadJobError "boom") ∧
    (load_csv_from_gcs failWorld utf16Args).1 =
      Except.error (Err.loadJobError "boom") :=
  ⟨(c9_wait_failure_propagates failWorld parquetArgs0 utf16Args "boom" rfl).1
     (by decide),
   (c9_wait_failure_propagates failWorld parquetArgs0 utf16Args "boom" rfl).2
     (by decide)⟩

/-- C10: `primary_key` influences only console logging: two
`load_parquet_from_gcs` calls differing only in `primary_key` produce the
same result (the same returned table identifier) and the same external-call
trace, hence the same submitted configuration and source URI. -/
theorem c10_primary_key_only_logging (w : World) (a : ParquetArgs)
    (pk : Option String) :
    load_parquet_from_gcs w { a with primary_key := pk } =
      load_parquet_from_gcs w a := by
  cases a
  rfl

end BqUtils
